import Mathlib

/-!
Verification of `zerver/lib/onboarding.py` (Zulip onboarding module).

The module is glue code over a messaging backend: it composes canned
onboarding strings, sends them, and records bookkeeping rows.  We embed the
string-composition and orchestration logic shallowly:

* Translation (`gettext`) is the identity (English source strings), matching
  the defaults used when no locale override applies; the embedded strings are
  the post-`format` values computed by the Python code.
* `remove_single_newlines` (from `zerver.lib.message`, outside this module) is
  kept as an abstract parameter `rsn : String → String`: it is applied
  uniformly to every outgoing message body, and no property below depends on
  what it does to a string.
* Database effects (message send, bulk insert, reaction) are modelled as the
  values this module passes to those primitives; fresh message ids produced by
  `do_send_messages` are modelled as a caller-supplied list of distinct ids.
-/

set_option maxRecDepth 40000

/-! ## Generic string helpers -/

/-- Substring occurrence test on character lists: `containsSub pat hay` is
`true` iff `pat` occurs contiguously inside `hay`. -/
def containsSub (pat : List Char) : List Char → Bool
  | [] => pat.isEmpty
  | c :: rest => pat.isPrefixOf (c :: rest) || containsSub pat rest

/-- `strContains s pat` is `true` iff `pat` is a contiguous substring of `s`. -/
def strContains (s pat : String) : Bool :=
  containsSub pat.data s.data

/-- ASCII lower-casing, the embedding of the Python `str.lower()` method as used on the
inputs this module receives (all keyword matching is over ASCII strings). -/
def strLower (s : String) : String :=
  ⟨s.data.map Char.toLower⟩

/-! ## `bot_commands` (onboarding.py lines 112-124) -/

/-- `bot_commands` from the source: the backtick-quoted, comma-separated
command list with a trailing period; `help` is appended unless
`no_help_command` is set.  (The Python default argument `no_help_command=False`
is passed explicitly at every call site here.) -/
def bot_commands (no_help_command : Bool) : String :=
  let commands := ["apps", "profile", "theme", "channels", "topics",
    "message formatting", "keyboard shortcuts"]
  let commands := if no_help_command then commands else commands ++ ["help"]
  String.intercalate ", " (commands.map (fun command => "`" ++ command ++ "`")) ++ "."

/-! ## `select_welcome_bot_response` (onboarding.py lines 127-188)

Each canned response below is the exact string the Python function returns
(translation = identity, `.format` applied). -/

def welcome_bot_apps_response : String :=
  "\nYou can [download](/apps/) the [mobile and desktop apps](/apps/).\nZulip also works great in a browser.\n"

def welcome_bot_profile_response : String :=
  "\nGo to [Profile settings](#settings/profile) to add a [profile picture](/help/change-your-profile-picture)\nand edit your [profile information](/help/edit-your-profile).\n"

def welcome_bot_theme_response : String :=
  "\nGo to [Preferences](#settings/preferences) to [switch between the light and dark themes](/help/dark-theme),\n[pick your favorite emoji theme](/help/emoji-and-emoticons#change-your-emoji-set),\n[change your language](/help/change-your-language), and make other tweaks\nto your Zulip experience.\n"

def welcome_bot_channels_response : String :=
  "\nIn Zulip, channels [determine who gets a message](/help/introduction-to-channels).\n\n[Browse and subscribe to channels](#channels/all).\n"

def welcome_bot_topics_response : String :=
  "\nIn Zulip, topics [tell you what a message is about](/help/introduction-to-topics).\nThey are light-weight subjects, very similar to the subject line of an email.\n\nCheck out [Recent conversations](#recent) to see what\x27s happening!\nYou can return to this conversation by clicking \"Direct messages\" in the upper left.\n"

def welcome_bot_shortcuts_response : String :=
  "\nZulip\x27s [keyboard shortcuts](#keyboard-shortcuts) let you navigate the app\nquickly and efficiently.\n\nPress `?` any time to see a [cheat sheet](#keyboard-shortcuts).\n"

def welcome_bot_formatting_response : String :=
  "\nZulip uses [Markdown](/help/format-your-message-using-markdown),\nan intuitive format for **bold**, *italics*, bulleted lists, and more.\nClick [here](#message-formatting) for a cheat sheet.\n\nCheck out our [messaging tips](/help/messaging-tips) to learn\nabout emoji reactions, code blocks and much more!\n"

def welcome_bot_help_response : String :=
  "\nHere are a few messages I understand: " ++ bot_commands true ++
  "\n\nCheck out our [Getting started guide](/help/getting-started-with-zulip),\nor browse the [Help center](/help/) to learn more!\n"

def welcome_bot_default_response : String :=
  "\nI’m sorry, I did not understand your message. Please try\none of the following commands: " ++ bot_commands false ++ "\n"

/-- `select_welcome_bot_response` from the source: given the (already
lower-cased) raw content of a direct message to Welcome Bot, pick the reply. -/
def select_welcome_bot_response (human_response_lower : String) : String :=
  if ["app", "apps"].contains human_response_lower then
    welcome_bot_apps_response
  else if human_response_lower == "profile" then
    welcome_bot_profile_response
  else if human_response_lower == "theme" then
    welcome_bot_theme_response
  else if ["stream", "streams", "channel", "channels"].contains human_response_lower then
    welcome_bot_channels_response
  else if ["topic", "topics"].contains human_response_lower then
    welcome_bot_topics_response
  else if ["keyboard", "shortcuts", "keyboard shortcuts"].contains human_response_lower then
    welcome_bot_shortcuts_response
  else if ["formatting", "message formatting"].contains human_response_lower then
    welcome_bot_formatting_response
  else if ["help", "?"].contains human_response_lower then
    welcome_bot_help_response
  else
    welcome_bot_default_response

/-! ## Data model for users and realms (fields used by this module) -/

/-- Organization types distinguished by `send_initial_direct_message`: the two
education categories checked against `Realm.ORG_TYPES` ids, and a
representative non-education type. -/
inductive OrgType where
  | business
  | education_nonprofit
  | education
  deriving DecidableEq, BEq

/-- The realm fields read by this module. -/
structure RealmModel where
  org_type : OrgType
  demo_organization_scheduled_deletion_date : Option Nat
  deriving DecidableEq

/-- The user fields read by this module. -/
structure UserProfileModel where
  realm : RealmModel
  user_id : Nat
  is_realm_admin : Bool
  is_realm_owner : Bool
  deriving DecidableEq

/-- The arguments this module passes to `internal_send_private_message`:
recipient, message content, and the external-notification suppression flag. -/
structure PrivateMessageSend where
  recipient : Nat
  content : String
  disable_external_notifications : Bool
  deriving DecidableEq

/-! ## `send_initial_direct_message` (onboarding.py lines 43-109) -/

/-- The education-organization test from `send_initial_direct_message`:
`user.realm.org_type in (education_nonprofit, education)`. -/
def education_organization (user : UserProfileModel) : Bool :=
  user.realm.org_type == OrgType.education_nonprofit
    || user.realm.org_type == OrgType.education

def getting_started_string (user : UserProfileModel) : String :=
  if education_organization user then
    "\nIf you are new to Zulip, check out our [Using Zulip for a class guide](/help/using-zulip-for-a-class)!\n"
  else
    "\nIf you are new to Zulip, check out our [Getting started guide](/help/getting-started-with-zulip)!\n"

def organization_setup_string (user : UserProfileModel) : String :=
  if user.is_realm_admin then
    if education_organization user then
      "\nWe also have a guide for [Setting up Zulip for a class](/help/setting-up-zulip-for-a-class).\n"
    else
      "\nWe also have a guide for [Setting up your organization](/help/getting-your-organization-started-with-zulip).\n"
  else ""

def demo_organization_warning_string (user : UserProfileModel) : String :=
  if user.is_realm_owner && user.realm.demo_organization_scheduled_deletion_date.isSome then
    "\nNote that this is a [demo organization](/help/demo-organizations) and\nwill be **automatically deleted** in 30 days.\n"
  else ""

/-- The full welcome direct-message content assembled by
`send_initial_direct_message` (the `content` variable, before
`remove_single_newlines`). -/
def initial_direct_message_content (user : UserProfileModel) : String :=
  "\nHello, and welcome to Zulip!👋 This is a direct message from me, Welcome Bot.\n\n"
  ++ getting_started_string user ++ " " ++ organization_setup_string user ++ "\n\n"
  ++ demo_organization_warning_string user
  ++ "\n\nI can also help you get set up! Just click anywhere on this message or press `r` to reply.\n\nHere are a few messages I understand: "
  ++ bot_commands false ++ "\n"

/-- `send_initial_direct_message`: the private message this module sends,
bot → user, with external notifications disabled.  `rsn` stands for
`remove_single_newlines`. -/
def send_initial_direct_message (rsn : String → String) (user : UserProfileModel) :
    PrivateMessageSend :=
  ⟨user.user_id, rsn (initial_direct_message_content user), true⟩

/-! ## `send_welcome_bot_response` (onboarding.py lines 191-205) -/

/-- The fields of a stored message read by `send_welcome_bot_response`. -/
structure MessageModel where
  sender : Nat
  content : String
  deriving DecidableEq

/-- The fields of a `SendMessageRequest` read by `send_welcome_bot_response`. -/
structure SendMessageRequestModel where
  realm_id : Nat
  message : MessageModel
  deriving DecidableEq

/-- `send_welcome_bot_response`: lower-cases the inbound content, selects the
reply, and sends it back to the sender with external notifications
disabled. -/
def send_welcome_bot_response (rsn : String → String)
    (send_request : SendMessageRequestModel) : PrivateMessageSend :=
  ⟨send_request.message.sender,
   rsn (select_welcome_bot_response (strLower send_request.message.content)),
   true⟩

/-! ## `send_initial_realm_messages` (onboarding.py lines 208-425) -/

/-- Name of the discussion channel created during realm setup
(`Realm.ZULIP_DISCUSSION_CHANNEL_NAME`, declared on the realm model outside
this module). -/
def zulip_discussion_channel_name : String := "Zulip"

/-- Name of the sandbox channel created during realm setup
(`Realm.ZULIP_SANDBOX_CHANNEL_NAME`). -/
def zulip_sandbox_channel_name : String := "sandbox"

/-- Name of the default notifications channel created during realm setup
(`Realm.DEFAULT_NOTIFICATION_STREAM_NAME`). -/
def default_notification_stream_name : String := "general"

def content1_of_moving_messages_topic_name : String :=
  "\nIf anything is out of place, it’s easy to [move messages](/help/move-content-to-another-topic),\n[rename](/help/rename-a-topic) and [split](/help/move-content-to-another-topic) topics,\nor even move a topic [to a different channel](/help/move-content-to-another-channel).\n"

def content2_of_moving_messages_topic_name : String :=
  "\n:point_right: Try moving this message to another topic and back.\n"

def content1_of_welcome_to_zulip_topic_name : String :=
  "\nZulip is organized to help you communicate more efficiently. Conversations are\nlabeled with topics, which summarize what the conversation is about.\n\nFor example, this message is in the “welcome to Zulip!” topic in the\n#**"
  ++ zulip_discussion_channel_name
  ++ "** channel, as you can see in the left sidebar\nand above.\n"

def content2_of_welcome_to_zulip_topic_name : String :=
  "\nYou can read Zulip one conversation at a time, seeing each message in context,\nno matter how many other conversations are going on.\n"

def content3_of_welcome_to_zulip_topic_name : String :=
  "\n:point_right: When you\x27re ready, check out your [Inbox](/#inbox) for other\nconversations with unread messages.\n"

def content1_of_start_conversation_topic_name : String :=
  "\nTo kick off a new conversation, click **Start new conversation** below.\nThe new conversation thread will be labeled with its own topic.\n"

def content2_of_start_conversation_topic_name : String :=
  "\nFor a good topic name, think about finishing the sentence: “Hey, can we chat about…?”\n"

def content3_of_start_conversation_topic_name : String :=
  "\n:point_right: Try starting a new conversation in this channel.\n"

def content1_of_experiments_topic_name : String :=
  "\n:point_right:  Use this topic to try out [Zulip\x27s messaging features](/help/format-your-message-using-markdown).\n"

def content2_of_experiments_topic_name : String :=
  "\n```spoiler Want to see some examples?\n\n````python\nprint(\"code blocks\")\n````\n\n- bulleted\n- lists\n\nLink to a conversation: #**"
  ++ zulip_discussion_channel_name
  ++ ">welcome to Zulip!**\n```\n"

def content1_of_greetings_topic_name : String :=
  "\nThis **greetings** topic is a great place to say “hi” :wave: to your teammates.\n"

def content2_of_greetings_topic_name : String :=
  "\n:point_right: Click on this message to start a new message in the same conversation.\n"

/-- One entry of the `welcome_messages` list built by
`send_initial_realm_messages`. -/
structure WelcomeMessage where
  channel_name : String
  topic_name : String
  content : String
  deriving DecidableEq

/-- The fixed `welcome_messages` list, in the declared order: moving messages
(discussion channel), experiments (sandbox), start a conversation (sandbox),
greetings (default notifications channel), and — last, so that it is most
visible in newest-first views — the main "welcome to Zulip!" topic
(discussion channel). -/
def welcome_messages : List WelcomeMessage :=
  ([content1_of_moving_messages_topic_name,
    content2_of_moving_messages_topic_name].map
      (fun content => ⟨zulip_discussion_channel_name, "moving messages", content⟩))
  ++ ([content1_of_experiments_topic_name,
       content2_of_experiments_topic_name].map
      (fun content => ⟨zulip_sandbox_channel_name, "experiments", content⟩))
  ++ ([content1_of_start_conversation_topic_name,
       content2_of_start_conversation_topic_name,
       content3_of_start_conversation_topic_name].map
      (fun content => ⟨zulip_sandbox_channel_name, "start a conversation", content⟩))
  ++ ([content1_of_greetings_topic_name,
       content2_of_greetings_topic_name].map
      (fun content => ⟨default_notification_stream_name, "greetings", content⟩))
  ++ ([content1_of_welcome_to_zulip_topic_name,
       content2_of_welcome_to_zulip_topic_name,
       content3_of_welcome_to_zulip_topic_name].map
      (fun content => ⟨zulip_discussion_channel_name, "welcome to Zulip!", content⟩))

/-- A message as sent by `do_send_messages`: the fresh id the backend
assigned, the addressing, and the content (after `remove_single_newlines`,
abstracted as `rsn`). -/
structure SentMessage where
  message_id : Nat
  channel_name : String
  topic_name : String
  content : String
  deriving DecidableEq

/-- The batch of channel messages `send_initial_realm_messages` sends: one
per entry of `welcome_messages`, in order, with the backend-assigned ids
`message_ids`. -/
def sent_initial_realm_messages (rsn : String → String) (message_ids : List Nat) :
    List SentMessage :=
  List.zipWith
    (fun m mid => ⟨mid, m.channel_name, m.topic_name, rsn m.content⟩)
    welcome_messages message_ids

/-- The `onboarding_topics_first_message_ids` set: iterating the declared
list in order, the id of the first message of each not-yet-seen topic.  The
fold state is (seen topic names, collected first-message ids). -/
def onboarding_topics_first_message_ids (message_ids : List Nat) : List Nat :=
  ((welcome_messages.zip message_ids).foldl
    (fun acc p =>
      if acc.1.contains p.1.topic_name then acc
      else (acc.1 ++ [p.1.topic_name], acc.2 ++ [p.2]))
    ([], [])).2

/-- One `OnboardingUserMessage` bookkeeping row: the referenced message id
and its flags. -/
structure OnboardingUserMessageRow where
  message_id : Nat
  historical : Bool
  starred : Bool
  deriving DecidableEq

/-- The `OnboardingUserMessage` rows bulk-created by
`send_initial_realm_messages`: one per sent message id, every row with the
historical flag, and additionally the starred flag exactly when the id is in
`onboarding_topics_first_message_ids`. -/
def onboarding_user_messages (message_ids : List Nat) : List OnboardingUserMessageRow :=
  message_ids.map (fun mid =>
    ⟨mid, true, (onboarding_topics_first_message_ids message_ids).contains mid⟩)

/-- The content-based lookup of the greetings message: among the just-sent
messages (the query restricts to `id__in=message_ids`, which is exactly the
sent batch), the first one whose content equals the normalized first
greetings content. -/
def greetings_message_lookup (rsn : String → String) (message_ids : List Nat) :
    Option SentMessage :=
  (sent_initial_realm_messages rsn message_ids).find?
    (fun m => m.content == rsn content1_of_greetings_topic_name)

/-- A reaction row as passed to `do_add_reaction`. -/
structure ReactionRow where
  message_id : Nat
  emoji_name : String
  deriving DecidableEq

/-- The wave reaction `send_initial_realm_messages` attaches to the found
greetings message (`none` models the assertion failing before the reaction
step). -/
def welcome_reaction (rsn : String → String) (message_ids : List Nat) :
    Option ReactionRow :=
  (greetings_message_lookup rsn message_ids).map (fun m => ⟨m.message_id, "wave"⟩)

/-! ## `missing_any_realm_internal_bots` (onboarding.py lines 22-30) and
`create_if_missing_realm_internal_bots` (lines 33-40)

State model: `realms` is the list of realm ids (`Realm.objects`), `profiles`
the list of user rows as (realm id, email) pairs (`UserProfile.objects`;
the row list may in principle repeat a pair, so uniqueness is an explicit
hypothesis where needed), and `bot_emails` the configured system-bot emails
(`settings.REALM_INTERNAL_BOTS` rendered through the email template). -/

/-- The rows matching `UserProfile.objects.filter(email__in=bot_emails)`. -/
def bot_email_matches (bot_emails : List String) (profiles : List (Nat × String)) :
    List (Nat × String) :=
  profiles.filter (fun p => bot_emails.contains p.2)

/-- The count that the query step `annotate(count=Count("id"))` computes for one
email group: the number of rows with that email. -/
def email_count (profiles : List (Nat × String)) (e : String) : Nat :=
  (profiles.filter (fun p => p.2 == e)).length

/-- `missing_any_realm_internal_bots`: group the matching rows by email
(`.values("email")` — the distinct emails occurring among them), keep the
groups whose row count equals `Realm.objects.count()`, and report missing
unless the number of such groups equals the number of configured bot
emails. -/
def missing_any_realm_internal_bots (bot_emails : List String) (realms : List Nat)
    (profiles : List (Nat × String)) : Bool :=
  (((bot_email_matches bot_emails profiles).map Prod.snd).dedup.filter
      (fun e => email_count (bot_email_matches bot_emails profiles) e == realms.length)).length
    != bot_emails.length

/-- Modelled from the spec: `setup_realm_internal_bots`
(`zerver.actions.create_realm`, not under src/) "triggers creation of the
missing bots" for one realm — it adds a row for each configured bot email
the realm does not already have. -/
def setup_realm_internal_bots (bot_emails : List String) (profiles : List (Nat × String))
    (r : Nat) : List (Nat × String) :=
  profiles ++ (bot_emails.filter (fun e => !profiles.contains (r, e))).map (fun e => (r, e))

/-- `create_if_missing_realm_internal_bots`: if the check reports a missing
bot, run `setup_realm_internal_bots` for every realm; otherwise do
nothing. -/
def create_if_missing_realm_internal_bots (bot_emails : List String) (realms : List Nat)
    (profiles : List (Nat × String)) : List (Nat × String) :=
  if missing_any_realm_internal_bots bot_emails realms profiles then
    realms.foldl (setup_realm_internal_bots bot_emails) profiles
  else profiles

/-- The comparison the spec describes for the missing-bot check (stated from
the words of the spec, to compare against the code function
`missing_any_realm_internal_bots`): the count of bot-email matches against
organization count × required-bot count. -/
def spec_missing_bots_comparison (bot_emails : List String) (realms : List Nat)
    (profiles : List (Nat × String)) : Bool :=
  (bot_email_matches bot_emails profiles).length != realms.length * bot_emails.length

/-- All keywords recognized by `select_welcome_bot_response`. -/
def welcome_bot_keywords : List String :=
  ["app", "apps", "profile", "theme", "stream", "streams", "channel", "channels",
   "topic", "topics", "keyboard", "shortcuts", "keyboard shortcuts",
   "formatting", "message formatting", "help", "?"]

/-- C1: `select_welcome_bot_response` deterministically returns the canned
response of the keyword group the input exactly matches (app/apps, profile,
theme, stream/streams/channel/channels, topic/topics,
keyboard/shortcuts/keyboard shortcuts, formatting/message formatting, help/?),
and for every input matching none of these keywords it returns the fallback
"did not understand" message listing the available commands; being a Lean
function, it is total over all string inputs. -/
theorem select_welcome_bot_response_spec (s : String) :
    (s ∈ ["app", "apps"] →
      select_welcome_bot_response s = welcome_bot_apps_response)
  ∧ (s = "profile" →
      select_welcome_bot_response s = welcome_bot_profile_response)
  ∧ (s = "theme" →
      select_welcome_bot_response s = welcome_bot_theme_response)
  ∧ (s ∈ ["stream", "streams", "channel", "channels"] →
      select_welcome_bot_response s = welcome_bot_channels_response)
  ∧ (s ∈ ["topic", "topics"] →
      select_welcome_bot_response s = welcome_bot_topics_response)
  ∧ (s ∈ ["keyboard", "shortcuts", "keyboard shortcuts"] →
      select_welcome_bot_response s = welcome_bot_shortcuts_response)
  ∧ (s ∈ ["formatting", "message formatting"] →
      select_welcome_bot_response s = welcome_bot_formatting_response)
  ∧ (s ∈ ["help", "?"] →
      select_welcome_bot_response s = welcome_bot_help_response)
  ∧ (s ∉ welcome_bot_keywords →
      select_welcome_bot_response s = welcome_bot_default_response) := by
  refine ⟨?_, ?_, ?_, ?_, ?_, ?_, ?_, ?_, ?_⟩ <;> intro h
  · simp only [List.mem_cons, List.not_mem_nil, or_false] at h
    rcases h with h | h <;> subst h <;> rfl
  · subst h; rfl
  · subst h; rfl
  · simp only [List.mem_cons, List.not_mem_nil, or_false] at h
    rcases h with h | h | h | h <;> subst h <;> rfl
  · simp only [List.mem_cons, List.not_mem_nil, or_false] at h
    rcases h with h | h <;> subst h <;> rfl
  · simp only [List.mem_cons, List.not_mem_nil, or_false] at h
    rcases h with h | h | h <;> subst h <;> rfl
  · simp only [List.mem_cons, List.not_mem_nil, or_false] at h
    rcases h with h | h <;> subst h <;> rfl
  · simp only [List.mem_cons, List.not_mem_nil, or_false] at h
    rcases h with h | h <;> subst h <;> rfl
  · simp only [welcome_bot_keywords, List.mem_cons, List.not_mem_nil, or_false, not_or] at h
    obtain ⟨h1, h2, h3, h4, h5, h6, h7, h8, h9, h10, h11, h12, h13, h14, h15, h16, h17⟩ := h
    simp [select_welcome_bot_response, List.contains, List.elem_eq_mem,
      h1, h2, h3, h4, h5, h6, h7, h8, h9, h10, h11, h12, h13, h14, h15, h16, h17]

/-- C1 witness: concrete instances of the keyword dispatch and the fallback. -/
theorem select_welcome_bot_response_spec_witness :
    select_welcome_bot_response "apps" = welcome_bot_apps_response
  ∧ select_welcome_bot_response "theme" = welcome_bot_theme_response
  ∧ select_welcome_bot_response "where am I" = welcome_bot_default_response :=
  ⟨(select_welcome_bot_response_spec "apps").1 (by decide),
   (select_welcome_bot_response_spec "theme").2.2.1 rfl,
   (select_welcome_bot_response_spec "where am I").2.2.2.2.2.2.2.2 (by decide)⟩

/-- C3: the initial direct message contains the education-specific
getting-started/setup links exactly when the organization type is an education
category (and then omits the general links), contains the extra
organization-setup paragraph exactly when the user is a realm administrator,
and contains the demo-deletion warning exactly when the user is a realm owner
and the realm has a non-null scheduled deletion date. -/
theorem send_initial_direct_message_spec (user : UserProfileModel) :
    strContains (initial_direct_message_content user) "/help/using-zulip-for-a-class"
      = education_organization user
  ∧ strContains (initial_direct_message_content user) "/help/getting-started-with-zulip"
      = !education_organization user
  ∧ strContains (initial_direct_message_content user) "We also have a guide for"
      = user.is_realm_admin
  ∧ strContains (initial_direct_message_content user) "/help/setting-up-zulip-for-a-class"
      = (education_organization user && user.is_realm_admin)
  ∧ strContains (initial_direct_message_content user) "automatically deleted"
      = (user.is_realm_owner && user.realm.demo_organization_scheduled_deletion_date.isSome) := by
  obtain ⟨⟨ot, dd⟩, uid, adm, own⟩ := user
  cases ot <;> cases adm <;> cases own <;> cases dd <;>
    simp only [education_organization, initial_direct_message_content,
      getting_started_string, organization_setup_string,
      demo_organization_warning_string, Option.isSome_some, Option.isSome_none] <;>
    refine ⟨?_, ?_, ?_, ?_, ?_⟩ <;> rfl

/-- C9: `send_welcome_bot_response` lower-cases the inbound content before
selecting the reply, so the reply content is `select_welcome_bot_response`
applied to the lower-cased content (then normalized by
`remove_single_newlines`, abstracted as `rsn`); in particular "APPS" and
"Apps" both receive the apps response. -/
theorem send_welcome_bot_response_lowercases (rsn : String → String)
    (send_request : SendMessageRequestModel) :
    (send_welcome_bot_response rsn send_request).content
      = rsn (select_welcome_bot_response (strLower send_request.message.content))
  ∧ (send_welcome_bot_response rsn
      ⟨send_request.realm_id, ⟨send_request.message.sender, "APPS"⟩⟩).content
      = rsn welcome_bot_apps_response
  ∧ (send_welcome_bot_response rsn
      ⟨send_request.realm_id, ⟨send_request.message.sender, "Apps"⟩⟩).content
      = rsn welcome_bot_apps_response := by
  exact ⟨rfl, rfl, rfl⟩

/-- C10: `bot_commands false` is the fixed backticked command list with
`help` appended last and a trailing period; `bot_commands true` is the same
list without `help`.  Consequently the help reply of the responder lists the
commands excluding `help`, while the fallback reply and the initial direct
message list the commands including `help`. -/
theorem bot_commands_spec (user : UserProfileModel) :
    bot_commands false
      = "`apps`, `profile`, `theme`, `channels`, `topics`, `message formatting`, `keyboard shortcuts`, `help`."
  ∧ bot_commands true
      = "`apps`, `profile`, `theme`, `channels`, `topics`, `message formatting`, `keyboard shortcuts`."
  ∧ strContains (select_welcome_bot_response "help") (bot_commands true) = true
  ∧ strContains (select_welcome_bot_response "help") "`help`" = false
  ∧ strContains (select_welcome_bot_response "have a nice day") (bot_commands false) = true
  ∧ strContains (initial_direct_message_content user) (bot_commands false) = true := by
  obtain ⟨⟨ot, dd⟩, uid, adm, own⟩ := user
  refine ⟨rfl, rfl, by decide, by decide, by decide, ?_⟩
  cases ot <;> cases adm <;> cases own <;> cases dd <;>
    simp only [education_organization, initial_direct_message_content,
      getting_started_string, organization_setup_string,
      demo_organization_warning_string, Option.isSome_some, Option.isSome_none] <;>
    rfl

/-- Helper: a list of length 12 is an explicit 12-element list. -/
lemma exists_twelve_of_length (l : List Nat) (h : l.length = 12) :
    ∃ a b c d e f g h' i j k m, l = [a, b, c, d, e, f, g, h', i, j, k, m] := by
  rcases l with _ | ⟨a, _ | ⟨b, _ | ⟨c, _ | ⟨d, _ | ⟨e, _ | ⟨f, _ | ⟨g, _ | ⟨h', _ |
    ⟨i, _ | ⟨j, _ | ⟨k, _ | ⟨m, rest⟩⟩⟩⟩⟩⟩⟩⟩⟩⟩⟩⟩ <;> simp_all

/-- C2: with distinct backend-assigned ids, `send_initial_realm_messages`
sends exactly one message per declared (channel, topic, content) triple in
the declared order (the "welcome to Zulip!" topic last), and creates exactly
one onboarding marker row per sent message, every row historical, and, for
each of the five distinct topics, exactly the first message sent in that
topic starred. -/
theorem send_initial_realm_messages_spec (rsn : String → String)
    (i1 i2 i3 i4 i5 i6 i7 i8 i9 i10 i11 i12 : Nat)
    (hnd : ([i1, i2, i3, i4, i5, i6, i7, i8, i9, i10, i11, i12] : List Nat).Nodup) :
    sent_initial_realm_messages rsn [i1, i2, i3, i4, i5, i6, i7, i8, i9, i10, i11, i12]
      = [⟨i1, zulip_discussion_channel_name, "moving messages", rsn content1_of_moving_messages_topic_name⟩,
         ⟨i2, zulip_discussion_channel_name, "moving messages", rsn content2_of_moving_messages_topic_name⟩,
         ⟨i3, zulip_sandbox_channel_name, "experiments", rsn content1_of_experiments_topic_name⟩,
         ⟨i4, zulip_sandbox_channel_name, "experiments", rsn content2_of_experiments_topic_name⟩,
         ⟨i5, zulip_sandbox_channel_name, "start a conversation", rsn content1_of_start_conversation_topic_name⟩,
         ⟨i6, zulip_sandbox_channel_name, "start a conversation", rsn content2_of_start_conversation_topic_name⟩,
         ⟨i7, zulip_sandbox_channel_name, "start a conversation", rsn content3_of_start_conversation_topic_name⟩,
         ⟨i8, default_notification_stream_name, "greetings", rsn content1_of_greetings_topic_name⟩,
         ⟨i9, default_notification_stream_name, "greetings", rsn content2_of_greetings_topic_name⟩,
         ⟨i10, zulip_discussion_channel_name, "welcome to Zulip!", rsn content1_of_welcome_to_zulip_topic_name⟩,
         ⟨i11, zulip_discussion_channel_name, "welcome to Zulip!", rsn content2_of_welcome_to_zulip_topic_name⟩,
         ⟨i12, zulip_discussion_channel_name, "welcome to Zulip!", rsn content3_of_welcome_to_zulip_topic_name⟩]
  ∧ onboarding_user_messages [i1, i2, i3, i4, i5, i6, i7, i8, i9, i10, i11, i12]
      = [⟨i1, true, true⟩, ⟨i2, true, false⟩, ⟨i3, true, true⟩, ⟨i4, true, false⟩,
         ⟨i5, true, true⟩, ⟨i6, true, false⟩, ⟨i7, true, false⟩, ⟨i8, true, true⟩,
         ⟨i9, true, false⟩, ⟨i10, true, true⟩, ⟨i11, true, false⟩, ⟨i12, true, false⟩] := by
  refine ⟨rfl, ?_⟩
  have hf : onboarding_topics_first_message_ids
      [i1, i2, i3, i4, i5, i6, i7, i8, i9, i10, i11, i12] = [i1, i3, i5, i8, i10] := by
    simp [onboarding_topics_first_message_ids, welcome_messages,
      zulip_discussion_channel_name, zulip_sandbox_channel_name,
      default_notification_stream_name]
  simp only [List.nodup_cons, List.mem_cons, List.not_mem_nil, or_false, not_or,
    List.nodup_nil, and_true] at hnd
  simp only [onboarding_user_messages, hf, List.map_cons, List.map_nil,
    List.cons.injEq, OnboardingUserMessageRow.mk.injEq, List.contains, List.elem_eq_mem,
    List.mem_cons, List.not_mem_nil, or_false, decide_eq_true_eq, decide_eq_false_iff_not,
    not_or, and_true, true_and, true_or, or_true]
  obtain ⟨⟨a2, a3, a4, a5, a6, a7, a8, a9, a10, a11, a12⟩,
    ⟨b3, b4, b5, b6, b7, b8, b9, b10, b11, b12⟩,
    ⟨c4, c5, c6, c7, c8, c9, c10, c11, c12⟩,
    ⟨d5, d6, d7, d8, d9, d10, d11, d12⟩,
    ⟨e6, e7, e8, e9, e10, e11, e12⟩,
    ⟨f7, f8, f9, f10, f11, f12⟩,
    ⟨g8, g9, g10, g11, g12⟩,
    ⟨hh9, hh10, hh11, hh12⟩,
    ⟨p10, p11, p12⟩, ⟨q11, q12⟩, r12, -⟩ := hnd
  exact ⟨⟨Ne.symm a2, b3, b5, b8, b10⟩,
    ⟨Ne.symm a4, Ne.symm c4, d5, d8, d10⟩,
    ⟨Ne.symm a6, Ne.symm c6, Ne.symm e6, f8, f10⟩,
    ⟨Ne.symm a7, Ne.symm c7, Ne.symm e7, g8, g10⟩,
    ⟨Ne.symm a9, Ne.symm c9, Ne.symm e9, Ne.symm hh9, p10⟩,
    ⟨Ne.symm a11, Ne.symm c11, Ne.symm e11, Ne.symm hh11, Ne.symm q11⟩,
    Ne.symm a12, Ne.symm c12, Ne.symm e12, Ne.symm hh12, Ne.symm q12⟩

/-- C2 witness: the onboarding rows at the concrete distinct ids 1..12. -/
theorem send_initial_realm_messages_spec_witness :
    ([1, 2, 3, 4, 5, 6, 7, 8, 9, 10, 11, 12] : List Nat).Nodup
  ∧ onboarding_user_messages [1, 2, 3, 4, 5, 6, 7, 8, 9, 10, 11, 12]
      = [⟨1, true, true⟩, ⟨2, true, false⟩, ⟨3, true, true⟩, ⟨4, true, false⟩,
         ⟨5, true, true⟩, ⟨6, true, false⟩, ⟨7, true, false⟩, ⟨8, true, true⟩,
         ⟨9, true, false⟩, ⟨10, true, true⟩, ⟨11, true, false⟩, ⟨12, true, false⟩] :=
  ⟨by decide,
   (send_initial_realm_messages_spec id 1 2 3 4 5 6 7 8 9 10 11 12 (by decide)).2⟩

/-- C6: whenever the backend assigns one id per declared message, the
content-based lookup of the greetings message finds a message (the `assert
greetings_message is not None` never fails), that message is one of the
just-sent batch with the normalized first-greetings content, and the wave
reaction from the welcome bot is attached to exactly that message. -/
theorem greetings_message_assertion_holds (rsn : String → String)
    (message_ids : List Nat)
    (h : message_ids.length = welcome_messages.length) :
    ∃ m, greetings_message_lookup rsn message_ids = some m
      ∧ m ∈ sent_initial_realm_messages rsn message_ids
      ∧ m.content = rsn content1_of_greetings_topic_name
      ∧ welcome_reaction rsn message_ids = some ⟨m.message_id, "wave"⟩ := by
  have hw : welcome_messages.length = 12 := by decide
  obtain ⟨a, b, c, d, e, f, g, h', i, j, k, m, rfl⟩ :=
    exists_twelve_of_length message_ids (h.trans hw)
  have hex : ∃ x ∈ sent_initial_realm_messages rsn [a, b, c, d, e, f, g, h', i, j, k, m],
      (x.content == rsn content1_of_greetings_topic_name) = true := by
    refine ⟨⟨h', default_notification_stream_name, "greetings",
      rsn content1_of_greetings_topic_name⟩, ?_, by simp⟩
    simp [sent_initial_realm_messages, welcome_messages,
      zulip_discussion_channel_name, zulip_sandbox_channel_name,
      default_notification_stream_name]
  have hsome : (greetings_message_lookup rsn [a, b, c, d, e, f, g, h', i, j, k, m]).isSome := by
    unfold greetings_message_lookup
    exact List.find?_isSome.mpr hex
  obtain ⟨mres, hm⟩ := Option.isSome_iff_exists.mp hsome
  have hm' : (sent_initial_realm_messages rsn [a, b, c, d, e, f, g, h', i, j, k, m]).find?
      (fun x => x.content == rsn content1_of_greetings_topic_name) = some mres := hm
  refine ⟨mres, hm, List.mem_of_find?_eq_some hm', ?_, ?_⟩
  · simpa using List.find?_some hm'
  · simp [welcome_reaction, hm]

/-- C6 witness: the lookup and reaction at concrete ids 1..12 with the
identity normalization. -/
theorem greetings_message_assertion_holds_witness :
    (([1, 2, 3, 4, 5, 6, 7, 8, 9, 10, 11, 12] : List Nat).length = welcome_messages.length)
  ∧ ∃ m, greetings_message_lookup id [1, 2, 3, 4, 5, 6, 7, 8, 9, 10, 11, 12] = some m
      ∧ m ∈ sent_initial_realm_messages id [1, 2, 3, 4, 5, 6, 7, 8, 9, 10, 11, 12]
      ∧ m.content = id content1_of_greetings_topic_name
      ∧ welcome_reaction id [1, 2, 3, 4, 5, 6, 7, 8, 9, 10, 11, 12]
          = some ⟨m.message_id, "wave"⟩ :=
  ⟨by decide,
   greetings_message_assertion_holds id [1, 2, 3, 4, 5, 6, 7, 8, 9, 10, 11, 12] (by decide)⟩

/-- C8: the fixed welcome list covers each default channel created during
realm setup — the discussion channel, the sandbox channel, and the default
notifications channel each receive at least one message. -/
theorem welcome_messages_cover_default_channels :
    zulip_discussion_channel_name ∈ welcome_messages.map WelcomeMessage.channel_name
  ∧ zulip_sandbox_channel_name ∈ welcome_messages.map WelcomeMessage.channel_name
  ∧ default_notification_stream_name ∈ welcome_messages.map WelcomeMessage.channel_name := by
  refine ⟨?_, ?_, ?_⟩ <;> decide

-- The matched-row count of a configured email equals its global count.
lemma email_count_bot_email_matches (bot_emails : List String)
    (profiles : List (Nat × String)) (e : String) (he : e ∈ bot_emails) :
    email_count (bot_email_matches bot_emails profiles) e = email_count profiles e := by
  unfold email_count bot_email_matches
  rw [List.filter_filter]
  congr 1
  apply List.filter_congr
  intro a _
  by_cases h : a.2 = e <;> simp [h, he, List.contains, List.elem_eq_mem]

-- L2: per-email count vs realm count
lemma email_count_realms (realms : List Nat) (profiles : List (Nat × String)) (e : String)
    (hp : profiles.Nodup) (hrn : realms.Nodup) (hfk : ∀ p ∈ profiles, p.1 ∈ realms) :
    email_count profiles e ≤ realms.length
    ∧ (email_count profiles e = realms.length ↔ ∀ r ∈ realms, (r, e) ∈ profiles) := by
  classical
  have hS : email_count profiles e
      = (profiles.toFinset.filter (fun p => p.2 = e)).card := by
    unfold email_count
    rw [← List.toFinset_card_of_nodup (hp.filter _)]
    congr 1
    ext q
    simp [List.mem_toFinset, List.mem_filter]
  have himg : profiles.toFinset.filter (fun p => p.2 = e)
      = (realms.toFinset.filter (fun r => (r, e) ∈ profiles)).image (fun r => (r, e)) := by
    ext q
    simp only [Finset.mem_filter, Finset.mem_image, List.mem_toFinset]
    constructor
    · rintro ⟨hq, he2⟩
      have hqe : (q.1, e) = q := by rw [← he2]
      exact ⟨q.1, ⟨hfk q hq, by rw [hqe]; exact hq⟩, hqe⟩
    · rintro ⟨r, ⟨hr, hrp⟩, rfl⟩
      exact ⟨hrp, rfl⟩
  have hcard2 : (profiles.toFinset.filter (fun p => p.2 = e)).card
      = (realms.toFinset.filter (fun r => (r, e) ∈ profiles)).card := by
    rw [himg]
    exact Finset.card_image_of_injective _ (fun a b hab => by simpa using hab)
  have hsub : realms.toFinset.filter (fun r => (r, e) ∈ profiles) ⊆ realms.toFinset :=
    Finset.filter_subset _ _
  have hrcard : realms.toFinset.card = realms.length := List.toFinset_card_of_nodup hrn
  constructor
  · rw [hS, hcard2, ← hrcard]
    exact Finset.card_le_card hsub
  · rw [hS, hcard2, ← hrcard]
    constructor
    · intro hcardeq
      have heq := Finset.eq_of_subset_of_card_le hsub (le_of_eq hcardeq.symm)
      intro r hr
      have hmem : r ∈ realms.toFinset.filter (fun r => (r, e) ∈ profiles) := by
        rw [heq]; exact List.mem_toFinset.mpr hr
      exact (Finset.mem_filter.mp hmem).2
    · intro hall
      congr 1
      exact Finset.filter_true_of_mem (fun r hr => hall r (List.mem_toFinset.mp hr))

-- countP bridge
lemma email_count_eq_countP (profiles : List (Nat × String)) (e : String) :
    email_count profiles e = profiles.countP (fun p => p.2 == e) := by
  unfold email_count
  rw [List.countP_eq_length_filter]

-- L3a: splitting the matched-row count at the head email
lemma countP_contains_cons (e : String) (rest : List String)
    (profiles : List (Nat × String)) (he : e ∉ rest) :
    profiles.countP (fun p => (e :: rest).contains p.2)
      = profiles.countP (fun p => p.2 == e)
        + profiles.countP (fun p => rest.contains p.2) := by
  induction profiles with
  | nil => rfl
  | cons q qs ih =>
    rw [List.countP_cons, List.countP_cons, List.countP_cons, ih]
    by_cases hq : q.2 = e
    · have hc1 : (e :: rest).contains q.2 = true := by simp [hq]
      have hc2 : rest.contains q.2 = false := by
        simp [hq, List.contains, List.elem_eq_mem, he]
      have hc3 : (q.2 == e) = true := by simp [hq]
      rw [hc1, hc2, hc3]
      simp
      omega
    · have hc3 : (q.2 == e) = false := by simpa using hq
      by_cases hq2 : q.2 ∈ rest
      · have hc1 : (e :: rest).contains q.2 = true := by
          simp [List.contains, List.elem_eq_mem, hq2]
        have hc2 : rest.contains q.2 = true := by
          simp [List.contains, List.elem_eq_mem, hq2]
        rw [hc1, hc2, hc3]
        simp
        omega
      · have hc1 : (e :: rest).contains q.2 = false := by
          simp [List.contains, List.elem_eq_mem, hq2, hq]
        have hc2 : rest.contains q.2 = false := by
          simp [List.contains, List.elem_eq_mem, hq2]
        rw [hc1, hc2, hc3]
        simp

-- L3: total matches = sum of per-email counts (distinct configured emails)
lemma bot_email_matches_length (bot_emails : List String)
    (profiles : List (Nat × String)) (hb : bot_emails.Nodup) :
    (bot_email_matches bot_emails profiles).length
      = (bot_emails.map (email_count profiles)).sum := by
  induction bot_emails with
  | nil => simp [bot_email_matches, List.contains]
  | cons e rest ih =>
    have hen : e ∉ rest := (List.nodup_cons.mp hb).1
    have hrn : rest.Nodup := (List.nodup_cons.mp hb).2
    unfold bot_email_matches at ih ⊢
    rw [← List.countP_eq_length_filter, countP_contains_cons e rest profiles hen,
      List.map_cons, List.sum_cons, ← ih hrn, ← List.countP_eq_length_filter,
      email_count_eq_countP]

-- L4a: bound
lemma sum_le_length_mul (xs : List Nat) (R : Nat) (hle : ∀ x ∈ xs, x ≤ R) :
    xs.sum ≤ xs.length * R := by
  induction xs with
  | nil => simp
  | cons x xs ih =>
    have h1 : x ≤ R := hle x (List.mem_cons_self x xs)
    have h2 : xs.sum ≤ xs.length * R := ih (fun y hy => hle y (List.mem_cons_of_mem x hy))
    rw [List.sum_cons, List.length_cons, Nat.succ_mul]
    omega

-- L4: saturation
lemma sum_eq_length_mul_iff (xs : List Nat) (R : Nat) (hle : ∀ x ∈ xs, x ≤ R) :
    xs.sum = xs.length * R ↔ ∀ x ∈ xs, x = R := by
  induction xs with
  | nil => simp
  | cons x xs ih =>
    have h1 : x ≤ R := hle x (List.mem_cons_self x xs)
    have h2 : ∀ y ∈ xs, y ≤ R := fun y hy => hle y (List.mem_cons_of_mem x hy)
    have h3 : xs.sum ≤ xs.length * R := sum_le_length_mul xs R h2
    rw [List.sum_cons, List.length_cons, Nat.succ_mul]
    constructor
    · intro h
      have hx : x = R := by omega
      have hs : xs.sum = xs.length * R := by omega
      intro y hy
      rcases List.mem_cons.mp hy with rfl | hy2
      · exact hx
      · exact (ih h2).mp hs y hy2
    · intro hall
      have hx : x = R := hall x (List.mem_cons_self x xs)
      have hs : xs.sum = xs.length * R :=
        (ih h2).mpr (fun y hy => hall y (List.mem_cons_of_mem x hy))
      omega

-- H2: the check reports nothing missing iff every realm has every configured bot
lemma missing_any_eq_false_iff (bot_emails : List String) (realms : List Nat)
    (profiles : List (Nat × String))
    (hr : realms ≠ []) (hrn : realms.Nodup) (hb : bot_emails.Nodup)
    (hp : profiles.Nodup) (hfk : ∀ p ∈ profiles, p.1 ∈ realms) :
    missing_any_realm_internal_bots bot_emails realms profiles = false
      ↔ ∀ e ∈ bot_emails, ∀ r ∈ realms, (r, e) ∈ profiles := by
  classical
  unfold missing_any_realm_internal_bots
  set M := bot_email_matches bot_emails profiles with hM
  set G := (M.map Prod.snd).dedup with hG
  set K := G.filter (fun e => email_count M e == realms.length) with hK
  have hKsub : ∀ e ∈ K, e ∈ bot_emails := by
    intro e heK
    have heG := (List.mem_filter.mp heK).1
    have heM := List.mem_dedup.mp (hG ▸ heG)
    obtain ⟨p, hpM, rfl⟩ := List.mem_map.mp heM
    have hc := (List.mem_filter.mp (hM ▸ hpM)).2
    simpa [List.contains, List.elem_eq_mem] using hc
  have hKnd : K.Nodup := (List.nodup_dedup _).filter _
  have hKe : ∀ e ∈ bot_emails, (e ∈ K ↔ email_count profiles e = realms.length) := by
    intro e he
    constructor
    · intro heK
      have h2 := (List.mem_filter.mp heK).2
      have h3 : email_count M e = realms.length := by simpa using h2
      rwa [hM, email_count_bot_email_matches bot_emails profiles e he] at h3
    · intro hcnt
      have hpos : 0 < email_count profiles e := by
        rw [hcnt]
        cases realms with
        | nil => exact absurd rfl hr
        | cons r rs => simp
      obtain ⟨p, hpmem, hpe⟩ : ∃ p ∈ profiles, (p.2 == e) = true := by
        by_contra hno
        push_neg at hno
        have hnil : profiles.filter (fun p => p.2 == e) = [] := by
          apply List.filter_eq_nil_iff.mpr
          intro a ha
          simpa using fun hae => by simpa [hae] using hno a ha
        unfold email_count at hpos
        rw [hnil] at hpos
        simp at hpos
      have hpe' : p.2 = e := by simpa using hpe
      have hpM : p ∈ M := by
        rw [hM]
        exact List.mem_filter.mpr ⟨hpmem, by simp [List.contains, List.elem_eq_mem, hpe', he]⟩
      have heG : e ∈ G := by
        rw [hG]
        exact List.mem_dedup.mpr (List.mem_map.mpr ⟨p, hpM, hpe'⟩)
      refine List.mem_filter.mpr ⟨heG, ?_⟩
      have : email_count M e = realms.length := by
        rw [hM, email_count_bot_email_matches bot_emails profiles e he, hcnt]
      simpa using this
  have hlen_iff : K.length = bot_emails.length ↔ ∀ e ∈ bot_emails, e ∈ K := by
    have hc1 : K.toFinset.card = K.length := List.toFinset_card_of_nodup hKnd
    have hc2 : bot_emails.toFinset.card = bot_emails.length := List.toFinset_card_of_nodup hb
    have hsub : K.toFinset ⊆ bot_emails.toFinset := by
      intro x hx
      exact List.mem_toFinset.mpr (hKsub x (List.mem_toFinset.mp hx))
    constructor
    · intro hlen e he
      have heq := Finset.eq_of_subset_of_card_le hsub (by omega)
      have hmem : e ∈ K.toFinset := by
        rw [heq]
        exact List.mem_toFinset.mpr he
      exact List.mem_toFinset.mp hmem
    · intro hall
      have h1 : K.toFinset = bot_emails.toFinset := by
        apply Finset.Subset.antisymm hsub
        intro x hx
        exact List.mem_toFinset.mpr (hall x (List.mem_toFinset.mp hx))
      rw [← hc1, ← hc2, h1]
  constructor
  · intro hmiss e he r hrm
    have hlen : K.length = bot_emails.length := by simpa using hmiss
    exact ((email_count_realms realms profiles e hp hrn hfk).2.mp
      ((hKe e he).mp (hlen_iff.mp hlen e he))) r hrm
  · intro hall
    have hlen : K.length = bot_emails.length :=
      hlen_iff.mpr (fun e he => (hKe e he).mpr
        ((email_count_realms realms profiles e hp hrn hfk).2.mpr (hall e he)))
    simpa using hlen

-- M0: membership after one setup pass
lemma mem_setup_realm_internal_bots (bot_emails : List String)
    (profiles : List (Nat × String)) (r : Nat) (x : Nat × String) :
    x ∈ setup_realm_internal_bots bot_emails profiles r
      ↔ x ∈ profiles ∨ (x.1 = r ∧ x.2 ∈ bot_emails) := by
  classical
  unfold setup_realm_internal_bots
  rw [List.mem_append]
  constructor
  · rintro (hx | hx)
    · exact Or.inl hx
    · obtain ⟨e, hef, rfl⟩ := List.mem_map.mp hx
      exact Or.inr ⟨rfl, (List.mem_filter.mp hef).1⟩
  · rintro (hx | ⟨hx1, hx2⟩)
    · exact Or.inl hx
    · by_cases hxin : x ∈ profiles
      · exact Or.inl hxin
      · refine Or.inr (List.mem_map.mpr ⟨x.2, List.mem_filter.mpr ⟨hx2, ?_⟩, ?_⟩)
        · have : (r, x.2) ∉ profiles := by
            rw [← hx1]
            simpa using hxin
          simpa [List.contains, List.elem_eq_mem] using this
        · rw [← hx1]

-- M1: membership after the whole repair fold
lemma mem_foldl_setup (bot_emails : List String) (rs : List Nat)
    (profiles : List (Nat × String)) (x : Nat × String) :
    x ∈ rs.foldl (setup_realm_internal_bots bot_emails) profiles
      ↔ x ∈ profiles ∨ (x.1 ∈ rs ∧ x.2 ∈ bot_emails) := by
  induction rs generalizing profiles with
  | nil => simp
  | cons r rs ih =>
    rw [List.foldl_cons, ih, mem_setup_realm_internal_bots]
    simp only [List.mem_cons]
    constructor
    · rintro ((hx | ⟨h1, h2⟩) | ⟨h1, h2⟩)
      · exact Or.inl hx
      · exact Or.inr ⟨Or.inl h1, h2⟩
      · exact Or.inr ⟨Or.inr h1, h2⟩
    · rintro (hx | ⟨h1 | h1, h2⟩)
      · exact Or.inl (Or.inl hx)
      · exact Or.inl (Or.inr ⟨h1, h2⟩)
      · exact Or.inr ⟨h1, h2⟩

-- M2: one setup pass preserves row uniqueness
lemma nodup_setup_realm_internal_bots (bot_emails : List String)
    (profiles : List (Nat × String)) (r : Nat)
    (hb : bot_emails.Nodup) (hp : profiles.Nodup) :
    (setup_realm_internal_bots bot_emails profiles r).Nodup := by
  classical
  unfold setup_realm_internal_bots
  rw [List.nodup_append]
  refine ⟨hp, ?_, ?_⟩
  · exact ((hb.filter _).map (fun a b hab => by simpa using hab))
  · intro x hx hx2
    obtain ⟨e, hef, rfl⟩ := List.mem_map.mp hx2
    have := (List.mem_filter.mp hef).2
    simp [List.contains, List.elem_eq_mem] at this
    exact this hx

-- M3: the repair fold preserves row uniqueness
lemma nodup_foldl_setup (bot_emails : List String) (rs : List Nat)
    (profiles : List (Nat × String)) (hb : bot_emails.Nodup) (hp : profiles.Nodup) :
    (rs.foldl (setup_realm_internal_bots bot_emails) profiles).Nodup := by
  induction rs generalizing profiles with
  | nil => exact hp
  | cons r rs ih =>
    rw [List.foldl_cons]
    exact ih _ (nodup_setup_realm_internal_bots bot_emails profiles r hb hp)

/-- C4 (amended): given at least one organization, distinct organizations,
distinct configured bot emails, unique (realm, email) account rows, and every
account row pointing at an existing organization,
`missing_any_realm_internal_bots` agrees with the product comparison described by the spec
and returns true exactly when some organization is missing some configured
bot account.  Without those state invariants (e.g. with no organizations at
all) the claim as stated is false, see the counterexample. -/
theorem missing_any_realm_internal_bots_amended (bot_emails : List String) (realms : List Nat)
    (profiles : List (Nat × String))
    (hr : realms ≠ []) (hrn : realms.Nodup) (hb : bot_emails.Nodup)
    (hp : profiles.Nodup) (hfk : ∀ p ∈ profiles, p.1 ∈ realms) :
    missing_any_realm_internal_bots bot_emails realms profiles
      = spec_missing_bots_comparison bot_emails realms profiles
  ∧ (missing_any_realm_internal_bots bot_emails realms profiles = true
      ↔ ∃ r ∈ realms, ∃ e ∈ bot_emails, (r, e) ∉ profiles) := by
  classical
  have hchar := missing_any_eq_false_iff bot_emails realms profiles hr hrn hb hp hfk
  have hspec : spec_missing_bots_comparison bot_emails realms profiles = false
      ↔ ∀ e ∈ bot_emails, ∀ r ∈ realms, (r, e) ∈ profiles := by
    unfold spec_missing_bots_comparison
    rw [bot_email_matches_length bot_emails profiles hb]
    have hle : ∀ x ∈ bot_emails.map (email_count profiles), x ≤ realms.length := by
      intro x hx
      obtain ⟨e, he, rfl⟩ := List.mem_map.mp hx
      exact (email_count_realms realms profiles e hp hrn hfk).1
    have hsum := sum_eq_length_mul_iff (bot_emails.map (email_count profiles))
      realms.length hle
    rw [List.length_map] at hsum
    constructor
    · intro h
      have h0 : (bot_emails.map (email_count profiles)).sum
          = bot_emails.length * realms.length := by
        exact (bne_eq_false_iff_eq.mp h).trans (Nat.mul_comm _ _)
      intro e he r hrm
      exact (email_count_realms realms profiles e hp hrn hfk).2.mp
        (hsum.mp h0 _ (List.mem_map.mpr ⟨e, he, rfl⟩)) r hrm
    · intro hall
      have h0 : ∀ x ∈ bot_emails.map (email_count profiles), x = realms.length := by
        intro x hx
        obtain ⟨e, he, rfl⟩ := List.mem_map.mp hx
        exact (email_count_realms realms profiles e hp hrn hfk).2.mpr (hall e he)
      exact bne_eq_false_iff_eq.mpr ((hsum.mpr h0).trans (Nat.mul_comm _ _))
  refine ⟨?_, ?_⟩
  · have hiff : missing_any_realm_internal_bots bot_emails realms profiles = false
        ↔ spec_missing_bots_comparison bot_emails realms profiles = false := by
      rw [hchar, hspec]
    cases hm : missing_any_realm_internal_bots bot_emails realms profiles <;>
      cases hs : spec_missing_bots_comparison bot_emails realms profiles <;>
      simp_all
  · have hneg : missing_any_realm_internal_bots bot_emails realms profiles = true
        ↔ ¬(missing_any_realm_internal_bots bot_emails realms profiles = false) := by
      cases missing_any_realm_internal_bots bot_emails realms profiles <;> simp
    rw [hneg, hchar]
    push_neg
    constructor
    · rintro ⟨e, he, r, hrm, hnot⟩
      exact ⟨r, hrm, e, he, hnot⟩
    · rintro ⟨r, hrm, e, he, hnot⟩
      exact ⟨e, he, r, hrm, hnot⟩

lemma create_if_missing_noop (bot_emails : List String) (realms : List Nat)
    (ps : List (Nat × String))
    (h : missing_any_realm_internal_bots bot_emails realms ps = false) :
    create_if_missing_realm_internal_bots bot_emails realms ps = ps := by
  unfold create_if_missing_realm_internal_bots
  rw [h]
  simp

/-- C5 (amended): `create_if_missing_realm_internal_bots` performs no
creation when the check reports nothing missing; it is idempotent on the
state (running it twice equals running it once); and — provided at least one
organization exists (plus the standard uniqueness and foreign-key
invariants) — after one run the re-run of the check reports no missing
bots.  With zero organizations the re-check conjunct fails, see the
counterexample. -/
theorem create_if_missing_realm_internal_bots_idempotent (bot_emails : List String)
    (realms : List Nat) (profiles : List (Nat × String))
    (hr : realms ≠ []) (hrn : realms.Nodup) (hb : bot_emails.Nodup)
    (hp : profiles.Nodup) (hfk : ∀ p ∈ profiles, p.1 ∈ realms) :
    (missing_any_realm_internal_bots bot_emails realms profiles = false →
      create_if_missing_realm_internal_bots bot_emails realms profiles = profiles)
  ∧ missing_any_realm_internal_bots bot_emails realms
      (create_if_missing_realm_internal_bots bot_emails realms profiles) = false
  ∧ create_if_missing_realm_internal_bots bot_emails realms
      (create_if_missing_realm_internal_bots bot_emails realms profiles)
      = create_if_missing_realm_internal_bots bot_emails realms profiles := by
  classical
  have hfixed : missing_any_realm_internal_bots bot_emails realms
      (create_if_missing_realm_internal_bots bot_emails realms profiles) = false := by
    by_cases hm : missing_any_realm_internal_bots bot_emails realms profiles
    · have hcreate : create_if_missing_realm_internal_bots bot_emails realms profiles
          = realms.foldl (setup_realm_internal_bots bot_emails) profiles := by
        unfold create_if_missing_realm_internal_bots
        rw [hm]
        simp
      rw [hcreate]
      have hp2 := nodup_foldl_setup bot_emails realms profiles hb hp
      have hfk2 : ∀ p ∈ realms.foldl (setup_realm_internal_bots bot_emails) profiles,
          p.1 ∈ realms := by
        intro p hpm
        rcases (mem_foldl_setup bot_emails realms profiles p).mp hpm with h1 | ⟨h1, _⟩
        · exact hfk p h1
        · exact h1
      rw [missing_any_eq_false_iff bot_emails realms _ hr hrn hb hp2 hfk2]
      intro e he rr hrr
      exact (mem_foldl_setup bot_emails realms profiles (rr, e)).mpr (Or.inr ⟨hrr, he⟩)
    · have hm' : missing_any_realm_internal_bots bot_emails realms profiles = false := by
        simpa using hm
      rw [create_if_missing_noop bot_emails realms profiles hm']
      exact hm'
  exact ⟨create_if_missing_noop bot_emails realms profiles, hfixed,
    create_if_missing_noop bot_emails realms _ hfixed⟩

/-- C4 counterexample: with one configured bot email, no organizations and
no accounts, the code reports missing (0 qualifying email groups ≠ 1
configured email) while the comparison described by the spec reports nothing
missing (0 matches = 0 organizations × 1 bot), and indeed no organization is
missing anything — there are none. -/
theorem missing_any_realm_internal_bots_counterexample :
    missing_any_realm_internal_bots ["welcome-bot@zulip.com"] [] [] = true
  ∧ spec_missing_bots_comparison ["welcome-bot@zulip.com"] [] [] = false
  ∧ ¬ ∃ r ∈ ([] : List Nat), ∃ e ∈ ["welcome-bot@zulip.com"],
      (r, e) ∉ ([] : List (Nat × String)) :=
  ⟨by decide, by decide, by simp⟩

/-- C5 counterexample: with one configured bot email and no organizations,
the repair loops over no realms and changes nothing, so re-running the check
after the repair still reports missing bots, contradicting the claimed
"after one run, a re-run reports no missing bots". -/
theorem create_if_missing_realm_internal_bots_counterexample :
    missing_any_realm_internal_bots ["welcome-bot@zulip.com"] []
      (create_if_missing_realm_internal_bots ["welcome-bot@zulip.com"] [] []) = true := by
  decide

/-- C4 witness: one organization holding both configured bot accounts. -/
theorem missing_any_realm_internal_bots_amended_witness :
    (([5] : List Nat) ≠ [] ∧ ([5] : List Nat).Nodup ∧ (["a", "b"] : List String).Nodup
      ∧ ([(5, "a"), (5, "b")] : List (Nat × String)).Nodup
      ∧ ∀ p ∈ ([(5, "a"), (5, "b")] : List (Nat × String)), p.1 ∈ ([5] : List Nat))
  ∧ (missing_any_realm_internal_bots ["a", "b"] [5] [(5, "a"), (5, "b")]
      = spec_missing_bots_comparison ["a", "b"] [5] [(5, "a"), (5, "b")]
    ∧ (missing_any_realm_internal_bots ["a", "b"] [5] [(5, "a"), (5, "b")] = true
        ↔ ∃ r ∈ ([5] : List Nat), ∃ e ∈ (["a", "b"] : List String),
            (r, e) ∉ ([(5, "a"), (5, "b")] : List (Nat × String)))) :=
  ⟨⟨by decide, by decide, by decide, by decide, by decide⟩,
   missing_any_realm_internal_bots_amended ["a", "b"] [5] [(5, "a"), (5, "b")]
     (by decide) (by decide) (by decide) (by decide) (by decide)⟩

/-- C5 witness: one organization, one configured bot, empty account table. -/
theorem create_if_missing_realm_internal_bots_idempotent_witness :
    (([1] : List Nat) ≠ [] ∧ ([1] : List Nat).Nodup
      ∧ (["a"] : List String).Nodup ∧ ([] : List (Nat × String)).Nodup
      ∧ ∀ p ∈ ([] : List (Nat × String)), p.1 ∈ ([1] : List Nat))
  ∧ ((missing_any_realm_internal_bots ["a"] [1] [] = false →
        create_if_missing_realm_internal_bots ["a"] [1] [] = [])
    ∧ missing_any_realm_internal_bots ["a"] [1]
        (create_if_missing_realm_internal_bots ["a"] [1] []) = false
    ∧ create_if_missing_realm_internal_bots ["a"] [1]
        (create_if_missing_realm_internal_bots ["a"] [1] [])
        = create_if_missing_realm_internal_bots ["a"] [1] []) :=
  ⟨⟨by decide, by decide, by decide, by decide, by simp⟩,
   create_if_missing_realm_internal_bots_idempotent ["a"] [1] []
     (by decide) (by decide) (by decide) (by decide) (by simp)⟩
